import Mathlib

/-!
Verification of the derived-variable and descriptive-statistics pipeline of the
Card-Krueger replication repository.

The Python sources operate on pandas dataframes whose numeric cells are IEEE
floats with NaN marking a missing value.  We embed a cell as `Option ℚ`
(`none` = NaN/missing) and reproduce the NaN semantics that the scripts rely
on:

* arithmetic propagates `none`;
* comparisons (`==`, `<`, `>`, `>=`) against a constant are `false` on `none`,
  while `!=` is `true` on `none` (pandas behaviour);
* quantities that the sources obtain through `sqrt` (standard errors) are
  represented by their squares, which are rational; `sqrt` is strictly
  monotone on nonnegative reals, so equality, difference and positivity of
  standard errors coincide with equality, difference and positivity of the
  squares we compute.

Division by zero yields `inf`/NaN in numpy; no computation verified here
reaches a zero denominator with a nonzero numerator (the guards in the source
prevent it), and our `oDiv` returns `none` on a zero denominator, standing for
the NaN of the `0/0` case.
-/

namespace CardKrueger

/-- A missing-aware numeric cell: `none` is pandas NaN. -/
abbrev Cell := Option ℚ

/-- NaN-propagating addition, as in `df[a] + df[b]`. -/
def oAdd : Cell → Cell → Cell
  | some a, some b => some (a + b)
  | _, _ => none

/-- NaN-propagating subtraction. -/
def oSub : Cell → Cell → Cell
  | some a, some b => some (a - b)
  | _, _ => none

/-- NaN-propagating multiplication. -/
def oMul : Cell → Cell → Cell
  | some a, some b => some (a * b)
  | _, _ => none

/-- NaN-propagating division.  A zero denominator gives NaN for `0/0`; the
`x/0` (`inf`) case is never reached by the verified code paths and is also
mapped to `none`. -/
def oDiv : Cell → Cell → Cell
  | some a, some b => if b = 0 then none else some (a / b)
  | _, _ => none

/-- pandas `series == c`: NaN compares unequal, giving `false`. -/
def pdEq (x : Cell) (c : ℚ) : Bool :=
  match x with
  | some a => a = c
  | none => false

/-- pandas `series != c`: NaN gives `true`. -/
def pdNe (x : Cell) (c : ℚ) : Bool :=
  match x with
  | some a => a ≠ c
  | none => true

/-- pandas `series < c`: NaN gives `false`. -/
def pdLt (x : Cell) (c : ℚ) : Bool :=
  match x with
  | some a => a < c
  | none => false

/-- pandas `series > c`: NaN gives `false`. -/
def pdGt (x : Cell) (c : ℚ) : Bool :=
  match x with
  | some a => c < a
  | none => false

/-- pandas `series >= c`: NaN gives `false`. -/
def pdGe (x : Cell) (c : ℚ) : Bool :=
  match x with
  | some a => c ≤ a
  | none => false

/-! ## Dataframes and the Python object heap

A dataframe row is an association list from column names to cells, a frame is
a list of rows, and a heap of live Python objects is a list of frames; a
dataframe variable is an index into the heap.  `df.copy()` allocates a new
frame at the end of the heap; the vectorised column assignments of the source
become per-row updates of the frame the variable points to.  This lets the
claims about aliasing and non-mutation of the caller frame be stated
faithfully. -/

/-- One dataframe row: column name to cell. -/
abbrev ARow := List (String × Cell)

/-- `row[col]`: first binding wins, absent column reads as missing. -/
def rowGet : ARow → String → Cell
  | [], _ => none
  | p :: rest, c => if p.1 = c then p.2 else rowGet rest c

/-- `row[col] = v`: overwrite the binding if present, else append it. -/
def rowSet (r : ARow) (c : String) (v : Cell) : ARow :=
  match r with
  | [] => [(c, v)]
  | p :: rest => if p.1 = c then (c, v) :: rest else p :: rowSet rest c v

/-- A dataframe: list of rows. -/
abbrev Frame := List ARow

/-- The heap of live dataframes. -/
abbrev Heap := List Frame

/-- Dereference a dataframe variable. -/
def frameAt (h : Heap) (i : ℕ) : Frame :=
  (h.get? i).getD []

/-- `df.copy()`: allocate a fresh frame equal to the one at `i`, returning the
new variable. -/
def heapCopy (h : Heap) (i : ℕ) : ℕ × Heap :=
  (h.length, h ++ [frameAt h i])

/-- Apply a row transformation to every row of the frame at `i` (the meaning
of a vectorised column assignment). -/
def heapMapRows (h : Heap) (i : ℕ) (f : ARow → ARow) : Heap :=
  h.set i ((frameAt h i).map f)

/-! ## Derived-variable cell computations (src/utility.py) -/

/-- `utility.calculate_fte_employment` line 101/104:
`EMPFT + EMPPT * part_time_weight + NMGRS`. -/
def fteCell (w : ℚ) (ft pt mg : Cell) : Cell :=
  oAdd (oAdd ft (oMul pt (some w))) mg

/-- `table_3/replicate.py` lines 135/138 (`calculate_fte_employment` there):
`EMPFT + NMGRS + 0.5 * EMPPT`. -/
def fteCellT3 (ft pt mg : Cell) : Cell :=
  oAdd (oAdd ft mg) (oMul (some (1/2)) pt)

/-- Row body of `utility.calculate_fte_employment` (lines 98-113): wave-1 and
wave-2 FTE, zeroing of permanently closed stores (`STATUS2 == 3`), and the
employment change `DEMP`. -/
def fteRowUpdate (w : ℚ) (r : ARow) : ARow :=
  let r := rowSet r "EMPTOT" (fteCell w (rowGet r "EMPFT") (rowGet r "EMPPT") (rowGet r "NMGRS"))
  let r := rowSet r "EMPTOT2" (fteCell w (rowGet r "EMPFT2") (rowGet r "EMPPT2") (rowGet r "NMGRS2"))
  let r := if pdEq (rowGet r "STATUS2") 3 then rowSet r "EMPTOT2" (some 0) else r
  rowSet r "DEMP" (oSub (rowGet r "EMPTOT2") (rowGet r "EMPTOT"))

/-- Row body of `utility.calculate_chain_dummies` (lines 124-127):
`(CHAINr == k).astype(int)`. -/
def chainRowUpdate (r : ARow) : ARow :=
  let ch := rowGet r "CHAINr"
  let r := rowSet r "bk" (some (if pdEq ch 1 then 1 else 0))
  let r := rowSet r "kfc" (some (if pdEq ch 2 then 1 else 0))
  let r := rowSet r "roys" (some (if pdEq ch 3 then 1 else 0))
  rowSet r "wendys" (some (if pdEq ch 4 then 1 else 0))

/-- Row body of `utility.calculate_state_indicators` (lines 140-141). -/
def stateRowUpdate (r : ARow) : ARow :=
  let r := rowSet r "nj" (rowGet r "STATEr")
  rowSet r "pa" (oSub (some 1) (rowGet r "STATEr"))

/-- The gap value assigned under the mask of `utility.calculate_wage_gap`
line 162: `(5.05 - WAGE_ST) / WAGE_ST`. -/
def gapFormula (w : Cell) : Cell :=
  oDiv (oSub (some (505/100)) w) w

/-- Row body of `utility.calculate_wage_gap` (lines 154-162): `gap` starts at
`0.0` and is overwritten for New Jersey stores with `0 < WAGE_ST < 5.05`. -/
def gapRowUpdate (r : ARow) : ARow :=
  let r := rowSet r "gap" (some 0)
  let w := rowGet r "WAGE_ST"
  if pdEq (rowGet r "STATEr") 1 && pdLt w (505/100) && pdGt w 0 then
    rowSet r "gap" (gapFormula w)
  else r

/-- Row body of `utility.calculate_meal_prices` (lines 176/179). -/
def mealRowUpdate (r : ARow) : ARow :=
  let r := rowSet r "PMEAL" (oAdd (oAdd (rowGet r "PSODA") (rowGet r "PFRY")) (rowGet r "PENTREE"))
  rowSet r "PMEAL2" (oAdd (oAdd (rowGet r "PSODA2") (rowGet r "PFRY2")) (rowGet r "PENTREE2"))

/-- Row body of `utility.calculate_full_time_percentage` (lines 193-200):
`np.where(EMPTOT > 0, EMPFT / EMPTOT * 100, nan)`. -/
def fracftRowUpdate (r : ARow) : ARow :=
  let r := rowSet r "FRACFT"
    (if pdGt (rowGet r "EMPTOT") 0
     then oMul (oDiv (rowGet r "EMPFT") (rowGet r "EMPTOT")) (some 100)
     else none)
  rowSet r "FRACFT2"
    (if pdGt (rowGet r "EMPTOT2") 0
     then oMul (oDiv (rowGet r "EMPFT2") (rowGet r "EMPTOT2")) (some 100)
     else none)

/-- Row body of `utility.calculate_proportional_change` (lines 214-217):
`PCHEMPC = 2 * (EMPTOT2 - EMPTOT) / (EMPTOT2 + EMPTOT)`, then the closed-store
floor `PCHEMPC = -1` wherever `EMPTOT2 == 0`. -/
def pchempcRowUpdate (r : ARow) : ARow :=
  let e1 := rowGet r "EMPTOT"
  let e2 := rowGet r "EMPTOT2"
  let r := rowSet r "PCHEMPC" (oDiv (oMul (some 2) (oSub e2 e1)) (oAdd e2 e1))
  if pdEq e2 0 then rowSet r "PCHEMPC" (some (-1)) else r

/-! ## The heap-level utility functions

Each of the following is the direct translation of the corresponding function
of `src/utility.py`: copy the argument frame, then perform the column
assignments on the copy, returning the new dataframe variable. -/

/-- `utility.calculate_fte_employment` (lines 87-113); `w` is
`part_time_weight`, whose Python default is `0.5`. -/
def calculate_fte_employment (h : Heap) (df : ℕ) (w : ℚ) : ℕ × Heap :=
  let (d, h) := heapCopy h df
  (d, heapMapRows h d (fteRowUpdate w))

/-- `utility.calculate_chain_dummies` (lines 115-129). -/
def calculate_chain_dummies (h : Heap) (df : ℕ) : ℕ × Heap :=
  let (d, h) := heapCopy h df
  (d, heapMapRows h d chainRowUpdate)

/-- `utility.calculate_state_indicators` (lines 131-143). -/
def calculate_state_indicators (h : Heap) (df : ℕ) : ℕ × Heap :=
  let (d, h) := heapCopy h df
  (d, heapMapRows h d stateRowUpdate)

/-- `utility.calculate_wage_gap` (lines 145-164). -/
def calculate_wage_gap (h : Heap) (df : ℕ) : ℕ × Heap :=
  let (d, h) := heapCopy h df
  (d, heapMapRows h d gapRowUpdate)

/-- `utility.calculate_meal_prices` (lines 166-181). -/
def calculate_meal_prices (h : Heap) (df : ℕ) : ℕ × Heap :=
  let (d, h) := heapCopy h df
  (d, heapMapRows h d mealRowUpdate)

/-- `utility.calculate_full_time_percentage` (lines 183-202). -/
def calculate_full_time_percentage (h : Heap) (df : ℕ) : ℕ × Heap :=
  let (d, h) := heapCopy h df
  (d, heapMapRows h d fracftRowUpdate)

/-- `utility.calculate_proportional_change` (lines 204-219). -/
def calculate_proportional_change (h : Heap) (df : ℕ) : ℕ × Heap :=
  let (d, h) := heapCopy h df
  (d, heapMapRows h d pchempcRowUpdate)

/-! ## The wage-gap derivation of src/data/check.py

`check.calculate_derived_variables` lines 108-115 derive `gap` differently
from `utility.calculate_wage_gap`: the store mask is `STATEr != 0` (true on a
missing state), the upper bound is the complement of `WAGE_ST >= 5.05`, and a
final masked assignment sets `gap` to NaN wherever `WAGE_ST > 0` fails
(missing or nonpositive wage), for Pennsylvania stores as well. -/

/-- Row body of the `gap` block of `check.calculate_derived_variables`
(src/data/check.py lines 108-115). -/
def checkGapRowUpdate (r : ARow) : ARow :=
  let r := rowSet r "gap" (some 0)
  let w := rowGet r "WAGE_ST"
  let r :=
    if pdNe (rowGet r "STATEr") 0 && !(pdGe w (505/100)) && pdGt w 0 then
      rowSet r "gap" (gapFormula w)
    else r
  if !(pdGt w 0) then rowSet r "gap" none else r

/-! ## Closure handling -/

/-- Wave-2 FTE closure handling of `table_2/replicate.py`
`calculate_derived_variables` lines 63-66: permanently closed stores
(`STATUS2 == 3`) are set to `0`, then temporarily closed stores
(`STATUS2.isin([2, 4, 5])`) are set to NaN.  This is the
treat-temporarily-closed-as-missing policy. -/
def table2ClosureCell (status2 e2 : Cell) : Cell :=
  let e2 := if pdEq status2 3 then some 0 else e2
  if pdEq status2 2 || pdEq status2 4 || pdEq status2 5 then none else e2

/-- The masked assignments of `utility.create_analysis_sample` lines 266-273,
applied when `include_temp_closed` is true (the
treat-temporarily-closed-as-closed policy): only `STATUS2 == 2` rows have
their wave-2 employment fields zeroed; `DEMP` is then recomputed and `dwage`
set to `0` on those rows. -/
def analysisTempClosedRowUpdate (r : ARow) : ARow :=
  if pdEq (rowGet r "STATUS2") 2 then
    let r := rowSet r "EMPFT2" (some 0)
    let r := rowSet r "EMPPT2" (some 0)
    let r := rowSet r "NMGRS2" (some 0)
    let r := rowSet r "EMPTOT2" (some 0)
    let r := rowSet r "DEMP" (oSub (rowGet r "EMPTOT2") (rowGet r "EMPTOT"))
    rowSet r "dwage" (some 0)
  else r

/-- Keep only the rows satisfying the predicate (a pandas boolean-mask
selection; the rebinding of the Python variable to the filtered frame is
modelled in place, which is value-equivalent). -/
def heapFilterRows (h : Heap) (i : ℕ) (p : ARow → Bool) : Heap :=
  h.set i ((frameAt h i).filter p)

/-- `utility.create_analysis_sample` (lines 248-282): with
`include_temp_closed` false, rows with `STATUS2 == 2` are dropped (note:
dropped, not set to missing); with it true, the masked zeroing above is
applied instead.  Then rows must have a nonmissing `DEMP`, and must be closed
(`CLOSED == 1`) or have a nonmissing `dwage`. -/
def create_analysis_sample (h : Heap) (df : ℕ) (include_temp_closed : Bool) :
    ℕ × Heap :=
  let (s, h) := heapCopy h df
  let h :=
    if include_temp_closed then heapMapRows h s analysisTempClosedRowUpdate
    else heapFilterRows h s (fun r => !(pdEq (rowGet r "STATUS2") 2))
  let h := heapFilterRows h s (fun r => (rowGet r "DEMP").isSome)
  let h := heapFilterRows h s
    (fun r => pdEq (rowGet r "CLOSED") 1 ||
      (pdEq (rowGet r "CLOSED") 0 && (rowGet r "dwage").isSome))
  (s, h)

/-! ## Group statistics

Standard errors are computed by the sources as `std(ddof=1) / sqrt(n)`; as
explained at the top of the file they are carried here as their squares
(`sampleVariance / n`), which are rational.  `numpy`/`pandas` give NaN for the
`ddof=1` standard deviation of fewer than two values, hence the `none` below.
-/

/-- `series.dropna()` / `series[~np.isnan(series)]` on a column. -/
def cleanVals (xs : List Cell) : List ℚ :=
  xs.filterMap id

/-- `utility.calculate_mean_and_se` (lines 305-331): drop missing values; on
an empty remainder return `(nan, nan, 0)`; otherwise the mean, the squared
standard error `std(ddof=1)^2 / n`, and the count. -/
def calculate_mean_and_se (xs : List Cell) : Cell × Cell × ℕ :=
  let clean := cleanVals xs
  if clean.length = 0 then (none, none, 0)
  else
    let n : ℚ := clean.length
    let mean := clean.sum / n
    let stdSq : Cell :=
      if 2 ≤ clean.length then
        some ((clean.map (fun x => (x - mean) ^ 2)).sum / (n - 1))
      else none
    (some mean, stdSq.map (fun v => v / n), clean.length)

/-- `table_3/replicate.py` `calculate_statistics_with_se` (lines 180-195):
same statistic with an extra all-missing early return; the pandas `std()`
default is also `ddof=1`. -/
def calculate_statistics_with_se (xs : List Cell) : Cell × Cell × ℕ :=
  if xs.length = 0 ∨ xs.all (fun x => x.isNone) then (none, none, 0)
  else
    let clean := cleanVals xs
    if clean.length = 0 then (none, none, 0)
    else
      let n : ℚ := clean.length
      let mean := clean.sum / n
      let stdSq : Cell :=
        if 2 ≤ clean.length then
          some ((clean.map (fun x => (x - mean) ^ 2)).sum / (n - 1))
        else none
      (some mean, stdSq.map (fun v => v / n), clean.length)

/-- Arithmetic mean, as the spec words it. -/
def arithmeticMean (l : List ℚ) : ℚ :=
  l.sum / l.length

/-- Sample variance with one delta degree of freedom (`ddof=1`), undefined on
fewer than two values, as the spec words it. -/
def sampleVariance (l : List ℚ) : Option ℚ :=
  if 2 ≤ l.length then
    some ((l.map (fun x => (x - arithmeticMean l) ^ 2)).sum / ((l.length : ℚ) - 1))
  else none

/-! ### Row 3 of Table 3: paired versus independent change statistics -/

/-- The per-store differencing of `table_3/replicate.py` `process_row_3`
(lines 280-284): keep the rows where both waves are present, then difference
wave 2 minus wave 1. -/
def pairedDiffs (before after : List Cell) : List Cell :=
  (before.zip after).filterMap fun p =>
    match p.1, p.2 with
    | some a, some b => some (some (b - a))
    | _, _ => none

/-- The paired change statistic of `table_3/replicate.py` `process_row_3`
(lines 269-314, per-group core): statistics of the per-store differences over
the both-waves-present rows. -/
def process_row_3_paired_stat (before after : List Cell) : Cell × Cell × ℕ :=
  calculate_statistics_with_se (pairedDiffs before after)

/-- The independent change statistic of `table_3/card_krueger_table3.py`
`process_row_3` (lines 262-311, per-group core): difference of the two wave
means, with squared standard error `se1^2 + se2^2`. -/
def process_row_3_independent_stat (before after : List Cell) : Cell × Cell :=
  let s1 := calculate_statistics_with_se before
  let s2 := calculate_statistics_with_se after
  (oSub s2.1 s1.1, oAdd s1.2.1 s2.2.1)

/-! ### The two-group proportion test -/

/-- The t-statistic value produced by `calculate_proportion_stats`.
`zeroFallback` is the literal number `0` returned when the pooled standard
error is not strictly positive; `ratio num seSq` stands for
`num / sqrt seSq` with `0 < seSq`. -/
inductive TVal where
  | zeroFallback : TVal
  | ratio : ℚ → ℚ → TVal
deriving DecidableEq

/-- Return value of `calculate_proportion_stats`: the two proportions (in
percent) and their squared standard errors (percent squared), plus the
t-statistic. -/
structure PropStats where
  p1pct : Cell
  se1pctSq : Cell
  p2pct : Cell
  se2pctSq : Cell
  t : TVal
deriving DecidableEq

/-- `utility.calculate_proportion_stats` (lines 365-388), identical to
`table_2/replicate.py` lines 111-128.  `n` is `len(series)` (missing rows
included); `series.sum()` skips missing values.  With an empty group the
Python integer division `1/n` in the pooled-standard-error expression raises
`ZeroDivisionError`, modelled as the error case (the values computed before
that line are unobservable).  Otherwise the code returns
`(p1*100, se1*100, p2*100, se2*100, t)` with
`t = (p1-p2)/pooled_se if pooled_se > 0 else 0`; `pooled_se > 0` holds
exactly when its square is positive. -/
def calculate_proportion_stats (nj pa : List Cell) : Except String PropStats :=
  let n1 := nj.length
  let n2 := pa.length
  if n1 = 0 ∨ n2 = 0 then Except.error "ZeroDivisionError"
  else
    let p1 : ℚ := (cleanVals nj).sum / n1
    let p2 : ℚ := (cleanVals pa).sum / n2
    let se1Sq : ℚ := p1 * (1 - p1) / n1
    let se2Sq : ℚ := p2 * (1 - p2) / n2
    let pooled : ℚ := (n1 * p1 + n2 * p2) / (n1 + n2)
    let pooledSeSq : ℚ := pooled * (1 - pooled) * ((1 : ℚ) / n1 + (1 : ℚ) / n2)
    let t : TVal :=
      if 0 < pooledSeSq then TVal.ratio (p1 - p2) pooledSeSq else TVal.zeroFallback
    Except.ok
      { p1pct := some (p1 * 100), se1pctSq := some (se1Sq * 10000),
        p2pct := some (p2 * 100), se2pctSq := some (se2Sq * 10000), t := t }

/-! ## Output formatting -/

/-- Python `"{:.Nf}".format(q)`: fixed-point rendering with `dp` decimal
places.  Python rounds the IEEE double with round-half-even on its exact
binary value; exact decimal ties essentially never arise from the survey
arithmetic, and we round the rational with `round` (ties upward), which
agrees everywhere the sources evaluate it.  A Python `-0.00` is rendered here
as `0.00`; no verified claim depends on signed zero. -/
def formatFixed (dp : ℕ) (q : ℚ) : String :=
  let m : ℤ := round (q * ((10 : ℚ) ^ dp))
  let sign := if m < 0 then "-" else ""
  let a := m.natAbs
  let ip := a / 10 ^ dp
  let fp := a % 10 ^ dp
  let fs := toString fp
  let fs := String.mk (List.replicate (dp - fs.length) '0') ++ fs
  if dp = 0 then sign ++ toString ip else sign ++ toString ip ++ "." ++ fs

/-- `table_3/replicate.py` `format_number` (lines 458-469): a dot for a
missing mean or standard error, otherwise `mean (se)` to two decimals. -/
def format_number (mean se : Cell) : String :=
  match mean, se with
  | some m, some s => formatFixed 2 m ++ " (" ++ formatFixed 2 s ++ ")"
  | _, _ => "."

/-- `utility.format_coefficient` (lines 494-510): the EMPTY string for a
missing coefficient or standard error, otherwise `coef (se)` with
`decimal_places` decimals (Python default 2). -/
def format_coefficient (dp : ℕ) (coef se : Cell) : String :=
  match coef, se with
  | some c, some s => formatFixed dp c ++ " (" ++ formatFixed dp s ++ ")"
  | _, _ => ""

/-! ## The regression facade (table_4/replicate.py)

`run_regressions` (src/table_4/replicate.py lines 94-120) fits its five
models with `smf.ols('DEMP ~ ...', data).fit()` and nothing else: the
repository performs no row-count check and defines no error type for scarce
data (`InsufficientDataError` appears nowhere in the sources;
`data/check.py` even wraps each fit in a bare try/except that prints and
continues). -/

/-- The data a fit is computed from: the response vector and the design
matrix, one row per used dataframe row, intercept column first. -/
structure OlsPrepared where
  response : List ℚ
  design : List (List ℚ)
deriving DecidableEq

/-- Modelled from the spec: the fit itself is delegated to the external
statsmodels formula API, which is outside this repository.  The spec
describes its contract: rows with any missing value in the response or an
explanatory column are excluded before fitting (complete-case analysis), an
intercept term is always included implicitly, and the solver, given the
resulting response vector and design matrix, returns coefficients and
standard errors (spec sections 1 and 4.3); it is total on the prepared data.
We embed the observable data preparation. -/
def smf_ols (resp : String) (cols : List String) (df : Frame) : OlsPrepared :=
  let usable := df.filter fun r =>
    (rowGet r resp).isSome && cols.all fun c => (rowGet r c).isSome
  { response := usable.map fun r => (rowGet r resp).getD 0,
    design := usable.map fun r => 1 :: cols.map fun c => (rowGet r c).getD 0 }

/-- The five fitted models of Table 4. -/
structure Table4Models where
  model1 : OlsPrepared
  model2 : OlsPrepared
  model3 : OlsPrepared
  model4 : OlsPrepared
  model5 : OlsPrepared
deriving DecidableEq

/-- `table_4/replicate.py` `run_regressions` (lines 94-120): the five
reduced-form models, each an unconditional `smf.ols(...).fit()` call. -/
def run_regressions (df : Frame) : Table4Models :=
  { model1 := smf_ols "DEMP" ["nj"] df,
    model2 := smf_ols "DEMP" ["nj", "bk", "kfc", "roys", "CO_OWNED"] df,
    model3 := smf_ols "DEMP" ["gap"] df,
    model4 := smf_ols "DEMP" ["gap", "bk", "kfc", "roys", "CO_OWNED"] df,
    model5 := smf_ols "DEMP"
      ["gap", "bk", "kfc", "roys", "CO_OWNED", "CENTRALJ", "SOUTHJ", "PA1", "PA2"] df }

/-! ## Basic lemmas about rows, frames and the heap -/

theorem rowGet_rowSet_self (r : ARow) (c : String) (v : Cell) :
    rowGet (rowSet r c v) c = v := by
  induction r with
  | nil => simp [rowGet, rowSet]
  | cons p rest ih =>
    by_cases h : p.1 = c
    · simp [rowSet, h, rowGet]
    · simp [rowSet, h, rowGet, ih]

theorem rowGet_rowSet_ne (r : ARow) (c c' : String) (v : Cell) (h : c' ≠ c) :
    rowGet (rowSet r c v) c' = rowGet r c' := by
  have hcc : ¬ (c = c') := fun hh => h hh.symm
  induction r with
  | nil => simp [rowGet, rowSet, hcc]
  | cons p rest ih =>
    by_cases hp : p.1 = c
    · have hpc : ¬ (p.1 = c') := by rw [hp]; exact hcc
      simp [rowSet, hp, rowGet, hcc, hpc]
    · by_cases hq : p.1 = c'
      · simp [rowSet, hp, rowGet, hq, h]
      · simp [rowSet, hp, rowGet, hq, ih]

theorem frameAt_heapMapRows_ne (h : Heap) (i j : ℕ) (f : ARow → ARow)
    (hne : i ≠ j) : frameAt (heapMapRows h i f) j = frameAt h j := by
  simp [heapMapRows, frameAt, List.get?_eq_getElem?, List.getElem?_set_ne hne]

theorem frameAt_append_lt (h : Heap) (F : Frame) (j : ℕ) (hj : j < h.length) :
    frameAt (h ++ [F]) j = frameAt h j := by
  simp [frameAt, List.get?_eq_getElem?, List.getElem?_append, hj]

theorem copy_map_preserves (h : Heap) (df : ℕ) (f : ARow → ARow)
    (hdf : df < h.length) :
    frameAt (heapMapRows (h ++ [frameAt h df]) h.length f) df = frameAt h df := by
  rw [frameAt_heapMapRows_ne _ _ _ _ (ne_of_lt hdf).symm,
    frameAt_append_lt _ _ _ hdf]

/-- C10: each derived-variable function of the shared utility module copies
its argument dataframe before assigning any column, so the caller's frame is
identical before and after the call, and the returned dataframe is a fresh
object (a different heap reference). -/
theorem claim_C10 (h : Heap) (df : ℕ) (w : ℚ) (hdf : df < h.length) :
    ((calculate_fte_employment h df w).1 ≠ df ∧
      frameAt (calculate_fte_employment h df w).2 df = frameAt h df) ∧
    ((calculate_chain_dummies h df).1 ≠ df ∧
      frameAt (calculate_chain_dummies h df).2 df = frameAt h df) ∧
    ((calculate_state_indicators h df).1 ≠ df ∧
      frameAt (calculate_state_indicators h df).2 df = frameAt h df) ∧
    ((calculate_wage_gap h df).1 ≠ df ∧
      frameAt (calculate_wage_gap h df).2 df = frameAt h df) ∧
    ((calculate_meal_prices h df).1 ≠ df ∧
      frameAt (calculate_meal_prices h df).2 df = frameAt h df) ∧
    ((calculate_full_time_percentage h df).1 ≠ df ∧
      frameAt (calculate_full_time_percentage h df).2 df = frameAt h df) ∧
    ((calculate_proportional_change h df).1 ≠ df ∧
      frameAt (calculate_proportional_change h df).2 df = frameAt h df) := by
  refine ⟨⟨(ne_of_lt hdf).symm, ?_⟩, ⟨(ne_of_lt hdf).symm, ?_⟩,
    ⟨(ne_of_lt hdf).symm, ?_⟩, ⟨(ne_of_lt hdf).symm, ?_⟩,
    ⟨(ne_of_lt hdf).symm, ?_⟩, ⟨(ne_of_lt hdf).symm, ?_⟩,
    ⟨(ne_of_lt hdf).symm, ?_⟩⟩ <;>
  exact copy_map_preserves h df _ hdf

/-- A one-store demonstration heap used by witnesses. -/
def demoHeap : Heap :=
  [[[("EMPFT", some 10), ("EMPPT", some 4), ("NMGRS", some 1),
     ("EMPFT2", some 10), ("EMPPT2", some 4), ("NMGRS2", some 1),
     ("STATUS2", some 1), ("WAGE_ST", some (17/4)), ("STATEr", some 1),
     ("CHAINr", some 2), ("PSODA", some 1), ("PFRY", some 1),
     ("PENTREE", some 1), ("PSODA2", some 1), ("PFRY2", some 1),
     ("PENTREE2", some 1), ("EMPTOT", some 13), ("EMPTOT2", some 13)]]]

/-- Witness for C10 at a concrete one-store heap. -/
theorem claim_C10_witness :
    ((calculate_fte_employment demoHeap 0 (1/2)).1 ≠ 0 ∧
      frameAt (calculate_fte_employment demoHeap 0 (1/2)).2 0 = frameAt demoHeap 0) ∧
    ((calculate_chain_dummies demoHeap 0).1 ≠ 0 ∧
      frameAt (calculate_chain_dummies demoHeap 0).2 0 = frameAt demoHeap 0) ∧
    ((calculate_state_indicators demoHeap 0).1 ≠ 0 ∧
      frameAt (calculate_state_indicators demoHeap 0).2 0 = frameAt demoHeap 0) ∧
    ((calculate_wage_gap demoHeap 0).1 ≠ 0 ∧
      frameAt (calculate_wage_gap demoHeap 0).2 0 = frameAt demoHeap 0) ∧
    ((calculate_meal_prices demoHeap 0).1 ≠ 0 ∧
      frameAt (calculate_meal_prices demoHeap 0).2 0 = frameAt demoHeap 0) ∧
    ((calculate_full_time_percentage demoHeap 0).1 ≠ 0 ∧
      frameAt (calculate_full_time_percentage demoHeap 0).2 0 = frameAt demoHeap 0) ∧
    ((calculate_proportional_change demoHeap 0).1 ≠ 0 ∧
      frameAt (calculate_proportional_change demoHeap 0).2 0 = frameAt demoHeap 0) :=
  claim_C10 demoHeap 0 (1/2) (by decide)

/-! ## Claims C2 and C3: proportional change and FTE employment -/

theorem pchempc_value (r : ARow) :
    rowGet (pchempcRowUpdate r) "PCHEMPC" =
      (if pdEq (rowGet r "EMPTOT2") 0 then some (-1)
       else oDiv (oMul (some 2) (oSub (rowGet r "EMPTOT2") (rowGet r "EMPTOT")))
              (oAdd (rowGet r "EMPTOT2") (rowGet r "EMPTOT"))) := by
  unfold pchempcRowUpdate
  by_cases h : pdEq (rowGet r "EMPTOT2") 0
  · simp [h, rowGet_rowSet_self]
  · simp [h, rowGet_rowSet_self]

/-- C2: the proportional employment change is `2*(fte2-fte1)/(fte2+fte1)`,
except that whenever the wave-2 FTE is `0` the result is exactly `-1`
regardless of the wave-1 FTE (including the `0/0` row, whose quotient the
explicit special case overwrites). -/
theorem claim_C2 (r : ARow) :
    (rowGet r "EMPTOT2" = some 0 →
      rowGet (pchempcRowUpdate r) "PCHEMPC" = some (-1)) ∧
    (∀ p q : ℚ, rowGet r "EMPTOT" = some p → rowGet r "EMPTOT2" = some q →
      q ≠ 0 → q + p ≠ 0 →
      rowGet (pchempcRowUpdate r) "PCHEMPC" = some (2 * (q - p) / (q + p))) := by
  constructor
  · intro h
    rw [pchempc_value, h]
    simp [pdEq]
  · intro p q hp hq hq0 hsum
    rw [pchempc_value, hp, hq]
    simp [pdEq, hq0, oDiv, oMul, oSub, oAdd, hsum]

/-- Witness for C2: the closure floor at `(fte1, fte2) = (5, 0)` and the
plain formula at `(10, 12)`. -/
theorem claim_C2_witness :
    rowGet (pchempcRowUpdate [("EMPTOT", some 5), ("EMPTOT2", some 0)])
        "PCHEMPC" = some (-1) ∧
    rowGet (pchempcRowUpdate [("EMPTOT", some 10), ("EMPTOT2", some 12)])
        "PCHEMPC" = some (2 * (12 - 10) / (12 + 10)) :=
  ⟨(claim_C2 _).1 (by decide),
   (claim_C2 _).2 10 12 (by decide) (by decide) (by norm_num) (by norm_num)⟩

/-- C3: full-time-equivalent employment is
`full_time + part_time_weight * part_time + managers`, missing exactly when
at least one of the three inputs is missing (no zero fill), both in
`utility.calculate_fte_employment` and in the table-3 variant; and the
`EMPTOT` column is exactly this cell computation. -/
theorem claim_C3 :
    (∀ (w : ℚ) (ft pt mg : Cell),
      (fteCell w ft pt mg = none ↔ ft = none ∨ pt = none ∨ mg = none) ∧
      (∀ a b c : ℚ, ft = some a → pt = some b → mg = some c →
        fteCell w ft pt mg = some (a + w * b + c))) ∧
    (∀ ft pt mg : Cell,
      (fteCellT3 ft pt mg = none ↔ ft = none ∨ pt = none ∨ mg = none) ∧
      (∀ a b c : ℚ, ft = some a → pt = some b → mg = some c →
        fteCellT3 ft pt mg = some (a + (1/2) * b + c))) ∧
    (∀ (w : ℚ) (r : ARow),
      rowGet (fteRowUpdate w r) "EMPTOT" =
        fteCell w (rowGet r "EMPFT") (rowGet r "EMPPT") (rowGet r "NMGRS")) := by
  refine ⟨?_, ?_, ?_⟩
  · intro w ft pt mg
    constructor
    · cases ft <;> cases pt <;> cases mg <;> simp [fteCell, oAdd, oMul]
    · intro a b c ha hb hc
      subst ha; subst hb; subst hc
      simp [fteCell, oAdd, oMul]
      ring
  · intro ft pt mg
    constructor
    · cases ft <;> cases pt <;> cases mg <;> simp [fteCellT3, oAdd, oMul]
    · intro a b c ha hb hc
      subst ha; subst hb; subst hc
      simp [fteCellT3, oAdd, oMul]
      ring
  · intro w r
    have h1 : ("EMPTOT" : String) ≠ "DEMP" := by decide
    have h2 : ("EMPTOT" : String) ≠ "EMPTOT2" := by decide
    unfold fteRowUpdate
    dsimp only
    split <;>
      simp [rowGet_rowSet_ne _ _ _ _ h1, rowGet_rowSet_ne _ _ _ _ h2,
        rowGet_rowSet_self]

/-- Witness for C3 at the end-to-end scenario store
(`full_time = 10`, `part_time = 4`, `managers = 1`, weight `0.5`). -/
theorem claim_C3_witness :
    fteCell (1/2) (some 10) (some 4) (some 1) = some (10 + (1/2) * 4 + 1) ∧
    fteCellT3 (some 10) (some 4) (some 1) = some (10 + (1/2) * 4 + 1) :=
  ⟨(claim_C3.1 (1/2) _ _ _).2 10 4 1 rfl rfl rfl,
   (claim_C3.2.1 _ _ _).2 10 4 1 rfl rfl rfl⟩

/-! ## Claim C1: the wage gap -/

theorem gap_value (r : ARow) :
    rowGet (gapRowUpdate r) "gap" =
      (if pdEq (rowGet r "STATEr") 1 && pdLt (rowGet r "WAGE_ST") (505/100) &&
          pdGt (rowGet r "WAGE_ST") 0
       then gapFormula (rowGet r "WAGE_ST") else some 0) := by
  unfold gapRowUpdate
  dsimp only
  simp only [rowGet_rowSet_ne _ _ _ _ (show ("WAGE_ST" : String) ≠ "gap" by decide),
    rowGet_rowSet_ne _ _ _ _ (show ("STATEr" : String) ≠ "gap" by decide)]
  split <;> simp [rowGet_rowSet_self]

theorem check_gap_value (r : ARow) :
    rowGet (checkGapRowUpdate r) "gap" =
      (if !(pdGt (rowGet r "WAGE_ST") 0) then none
       else if pdNe (rowGet r "STATEr") 0 &&
          !(pdGe (rowGet r "WAGE_ST") (505/100)) && pdGt (rowGet r "WAGE_ST") 0
       then gapFormula (rowGet r "WAGE_ST") else some 0) := by
  unfold checkGapRowUpdate
  dsimp only
  simp only [rowGet_rowSet_ne _ _ _ _ (show ("WAGE_ST" : String) ≠ "gap" by decide),
    rowGet_rowSet_ne _ _ _ _ (show ("STATEr" : String) ≠ "gap" by decide)]
  split
  · split <;> simp [rowGet_rowSet_self]
  · split <;> simp [rowGet_rowSet_self]

/-- C1 counterexample: the claim fails on both implementations it cites.  In
`utility.calculate_wage_gap` a New Jersey store with a MISSING starting wage
gets gap `0`, not missing; in `check.calculate_derived_variables` a
Pennsylvania store with a missing starting wage gets gap missing, not `0`. -/
theorem claim_C1_counterexample :
    rowGet (gapRowUpdate [("STATEr", some 1), ("WAGE_ST", none)]) "gap" =
      some 0 ∧
    rowGet (checkGapRowUpdate [("STATEr", some 0), ("WAGE_ST", none)]) "gap" =
      none := by
  decide

/-- C1 amended: in `utility.calculate_wage_gap` the gap is
`(5.05 - w)/w` for New Jersey stores with `0 < w < 5.05` and `0` for every
other store, including New Jersey stores with a missing or nonpositive wage;
in `check.calculate_derived_variables` any store with a missing or
nonpositive wage (Pennsylvania included) gets a missing gap, stores with
`STATEr != 0` and `0 < w < 5.05` get `(5.05 - w)/w`, and the remaining
positive-wage stores get `0`. -/
theorem claim_C1_amended (r : ARow) :
    ((∀ q : ℚ, rowGet r "STATEr" = some 1 → rowGet r "WAGE_ST" = some q →
        0 < q → q < 505/100 →
        rowGet (gapRowUpdate r) "gap" = some ((505/100 - q) / q)) ∧
      (¬ (rowGet r "STATEr" = some 1 ∧
          ∃ q : ℚ, rowGet r "WAGE_ST" = some q ∧ 0 < q ∧ q < 505/100) →
        rowGet (gapRowUpdate r) "gap" = some 0)) ∧
    ((¬ pdGt (rowGet r "WAGE_ST") 0 = true →
        rowGet (checkGapRowUpdate r) "gap" = none) ∧
      (∀ q : ℚ, rowGet r "WAGE_ST" = some q → 0 < q → q < 505/100 →
        pdNe (rowGet r "STATEr") 0 = true →
        rowGet (checkGapRowUpdate r) "gap" = some ((505/100 - q) / q)) ∧
      (∀ q : ℚ, rowGet r "WAGE_ST" = some q → 0 < q →
        (rowGet r "STATEr" = some 0 ∨ 505/100 ≤ q) →
        rowGet (checkGapRowUpdate r) "gap" = some 0)) := by
  refine ⟨⟨?_, ?_⟩, ?_, ?_, ?_⟩
  · intro q hst hw h0 h505
    rw [gap_value, hst, hw]
    have hq : q ≠ 0 := ne_of_gt h0
    simp [pdEq, pdLt, pdGt, h0, h505, gapFormula, oDiv, oSub, hq]
  · intro hcond
    rw [gap_value]
    rcases hst : rowGet r "STATEr" with _ | s
    · simp [pdEq]
    · rcases hw : rowGet r "WAGE_ST" with _ | q
      · simp [pdEq, pdLt]
      · by_cases hs1 : s = 1
        · subst hs1
          have : ¬ (0 < q ∧ q < 505/100) := by
            intro hh
            exact hcond ⟨hst, q, hw, hh.1, hh.2⟩
          by_cases h0 : 0 < q
          · have hlt : ¬ (q < 505/100) := fun hl => this ⟨h0, hl⟩
            simp [pdEq, pdLt, pdGt, h0, hlt]
          · simp [pdEq, pdLt, pdGt, h0]
        · simp [pdEq, hs1]
  · intro hpos
    rw [check_gap_value]
    simp only [Bool.not_eq_true] at hpos
    simp [hpos]
  · intro q hw h0 h505 hne
    rw [check_gap_value, hw]
    have hq : q ≠ 0 := ne_of_gt h0
    have hge : ¬ ((505:ℚ)/100 ≤ q) := not_le.mpr h505
    simp [pdGt, pdGe, h0, hge, hne, gapFormula, oDiv, oSub, hq, hw]
  · intro q hw h0 hcase
    rw [check_gap_value, hw]
    rcases hcase with hpa | hge
    · simp [pdGt, h0, hpa, pdNe]
    · simp [pdGt, pdGe, h0, hge]

/-- Witness for C1 at the boundary stores of the spec scenario: a New Jersey
store at wage 4.25 and a Pennsylvania store at wage 4.25, through both
implementations. -/
theorem claim_C1_witness :
    rowGet (gapRowUpdate [("STATEr", some 1), ("WAGE_ST", some (17/4))])
        "gap" = some ((505/100 - 17/4) / (17/4)) ∧
    rowGet (gapRowUpdate [("STATEr", some 0), ("WAGE_ST", some (17/4))])
        "gap" = some 0 ∧
    rowGet (checkGapRowUpdate [("STATEr", some 1), ("WAGE_ST", some (17/4))])
        "gap" = some ((505/100 - 17/4) / (17/4)) ∧
    rowGet (checkGapRowUpdate [("STATEr", some 0), ("WAGE_ST", some (17/4))])
        "gap" = some 0 :=
  ⟨(claim_C1_amended _).1.1 (17/4) rfl rfl (by norm_num) (by norm_num),
   (claim_C1_amended _).1.2
     (by rintro ⟨hst, -⟩; exact absurd hst (by decide)),
   (claim_C1_amended _).2.2.1 (17/4) rfl (by norm_num) (by norm_num) (by decide),
   (claim_C1_amended _).2.2.2 (17/4) rfl (by norm_num) (Or.inl (by decide))⟩

/-! ## Claim C5: mean and standard error -/

theorem cleanVals_eq_nil_iff (xs : List Cell) :
    cleanVals xs = [] ↔ xs.all (fun x => x.isNone) := by
  induction xs with
  | nil => simp [cleanVals]
  | cons x t ih => cases x <;> simp [cleanVals, ← ih]

/-- C5: `calculate_mean_and_se` drops missing values first; it returns the
count of the remainder, its arithmetic mean, and the `ddof=1` sample standard
error (carried as its square, `sampleVariance / n`); on an empty remainder it
returns `(missing, missing, 0)` instead of raising; and the table-3 variant
`calculate_statistics_with_se` computes the same triple. -/
theorem claim_C5 (xs : List Cell) :
    calculate_mean_and_se xs =
      ((if (cleanVals xs).length = 0 then none
        else some (arithmeticMean (cleanVals xs))),
       (sampleVariance (cleanVals xs)).map
         (fun v => v / ((cleanVals xs).length : ℚ)),
       (cleanVals xs).length) ∧
    calculate_mean_and_se [] = (none, none, 0) ∧
    calculate_statistics_with_se xs = calculate_mean_and_se xs := by
  refine ⟨?_, rfl, ?_⟩
  · unfold calculate_mean_and_se arithmeticMean sampleVariance
    by_cases h0 : (cleanVals xs).length = 0
    · have h2 : ¬ (2 ≤ (cleanVals xs).length) := by omega
      simp [h0, h2]
    · by_cases h2 : 2 ≤ (cleanVals xs).length
      · simp [h0, h2, arithmeticMean]
      · simp [h0, h2]
  · unfold calculate_statistics_with_se calculate_mean_and_se
    by_cases hall : xs.length = 0 ∨ xs.all (fun x => x.isNone)
    · have hnil : cleanVals xs = [] := by
        rcases hall with h | h
        · have : xs = [] := List.length_eq_zero.mp h
          simp [this, cleanVals]
        · exact (cleanVals_eq_nil_iff xs).2 h
      rw [if_pos hall]
      simp [hnil]
    · rw [if_neg hall]

/-! ## Claim C6: closure handling -/

/-- A one-store heap whose store is closed for road construction
(`STATUS2 = 4`) with full wave-2 data. -/
def tempClosedHeap : Heap :=
  [[[("STATUS2", some 4), ("EMPTOT", some 8), ("EMPTOT2", some 10),
     ("DEMP", some 2), ("dwage", some 1), ("CLOSED", some 0),
     ("EMPFT2", some 6), ("EMPPT2", some 4), ("NMGRS2", some 2)]]]

/-- C6 counterexample: under the treat-temporarily-closed-as-closed policy
(`create_analysis_sample` with `include_temp_closed=True`), a store with
`STATUS2 = 4` (closed for road construction, one of the temporarily-closed
codes) keeps its wave-2 FTE of `10` unchanged instead of the claimed `0`:
only code `2` is zeroed. -/
theorem claim_C6_counterexample :
    rowGet ((frameAt (create_analysis_sample tempClosedHeap 0 true).2
        (create_analysis_sample tempClosedHeap 0 true).1).headD [])
      "EMPTOT2" = some 10 ∧
    (some (10 : ℚ) : Cell) ≠ some 0 := by
  decide

/-- C6 amended: permanently closed stores (`STATUS2 = 3`) get wave-2 FTE `0`
regardless of input, even a missing one; under the treat-as-missing policy
(`table_2/replicate.py`) all three temporarily-closed codes `2, 4, 5` become
missing and every other status leaves the value unchanged; under the
treat-as-closed policy (`utility.create_analysis_sample`,
`include_temp_closed=True`) only code `2` is zeroed, and rows with any other
status, codes `4` and `5` included, are left entirely unchanged. -/
theorem claim_C6_amended :
    (∀ e2 : Cell, table2ClosureCell (some 3) e2 = some 0) ∧
    (∀ (s : ℚ) (e2 : Cell), s = 2 ∨ s = 4 ∨ s = 5 →
      table2ClosureCell (some s) e2 = none) ∧
    (∀ (s : ℚ) (e2 : Cell), s ≠ 2 → s ≠ 3 → s ≠ 4 → s ≠ 5 →
      table2ClosureCell (some s) e2 = e2) ∧
    (∀ e2 : Cell, table2ClosureCell none e2 = e2) ∧
    (∀ r : ARow, rowGet r "STATUS2" = some 2 →
      rowGet (analysisTempClosedRowUpdate r) "EMPTOT2" = some 0) ∧
    (∀ r : ARow, ¬ pdEq (rowGet r "STATUS2") 2 = true →
      analysisTempClosedRowUpdate r = r) := by
  refine ⟨?_, ?_, ?_, ?_, ?_, ?_⟩
  · intro e2; simp [table2ClosureCell, pdEq]
  · intro s e2 hs
    rcases hs with h | h | h <;> subst h <;> simp [table2ClosureCell, pdEq]
  · intro s e2 h2 h3 h4 h5
    simp [table2ClosureCell, pdEq, h2, h3, h4, h5]
  · intro e2; simp [table2ClosureCell, pdEq]
  · intro r hst
    unfold analysisTempClosedRowUpdate
    dsimp only
    rw [hst]
    simp only [pdEq, decide_eq_true_eq, if_pos rfl, if_pos]
    rw [rowGet_rowSet_ne _ _ _ _ (show ("EMPTOT2" : String) ≠ "dwage" by decide),
      rowGet_rowSet_ne _ _ _ _ (show ("EMPTOT2" : String) ≠ "DEMP" by decide),
      rowGet_rowSet_self]
  · intro r hne
    simp [analysisTempClosedRowUpdate, hne]

/-- Witness for C6 at concrete statuses. -/
theorem claim_C6_witness :
    table2ClosureCell (some 3) none = some 0 ∧
    table2ClosureCell (some 4) (some 10) = none ∧
    table2ClosureCell (some 1) (some 10) = some 10 ∧
    rowGet (analysisTempClosedRowUpdate
        [("STATUS2", some 2), ("EMPTOT", some 8), ("EMPTOT2", some 10)])
      "EMPTOT2" = some 0 ∧
    analysisTempClosedRowUpdate [("STATUS2", some 4), ("EMPTOT2", some 10)] =
      [("STATUS2", some 4), ("EMPTOT2", some 10)] :=
  ⟨claim_C6_amended.1 none,
   claim_C6_amended.2.1 4 (some 10) (Or.inr (Or.inl rfl)),
   claim_C6_amended.2.2.1 1 (some 10) (by norm_num) (by norm_num) (by norm_num)
     (by norm_num),
   claim_C6_amended.2.2.2.2.1 _ rfl,
   claim_C6_amended.2.2.2.2.2 _ (by decide)⟩

/-! ## Claim C7: paired versus independent change statistics -/

/-- C7 counterexample: an input with a missing wave-1 value alongside
complete rows on which the paired and the independent standard errors
COINCIDE (both squared standard errors equal `1`), so the two forms do not
differ on every such input. -/
theorem claim_C7_counterexample :
    (process_row_3_paired_stat [some 0, some 2, none]
        [some 5, some 5, some 5]).2.1 =
      (process_row_3_independent_stat [some 0, some 2, none]
        [some 5, some 5, some 5]).2 ∧
    (process_row_3_paired_stat [some 0, some 2, none]
        [some 5, some 5, some 5]).2.1 = some 1 := by
  have hp : pairedDiffs [some 0, some 2, none] [some 5, some 5, some 5] =
      [some 5, some 3] := by
    norm_num [pairedDiffs, List.filterMap_cons, List.filterMap_nil]
  have h1 : calculate_statistics_with_se [some 5, some 3] =
      (some 4, some 1, 2) := by
    norm_num [calculate_statistics_with_se, cleanVals, List.filterMap_cons, List.filterMap_nil]
  have h2 : calculate_statistics_with_se [some 0, some 2, none] =
      (some 1, some 1, 2) := by
    norm_num [calculate_statistics_with_se, cleanVals, List.filterMap_cons, List.filterMap_nil]
  have h3 : calculate_statistics_with_se [some 5, some 5, some 5] =
      (some 5, some 0, 3) := by
    norm_num [calculate_statistics_with_se, cleanVals, List.filterMap_cons, List.filterMap_nil]
  constructor
  · simp [process_row_3_paired_stat, process_row_3_independent_stat,
      hp, h1, h2, h3, oAdd]
  · simp [process_row_3_paired_stat, hp, h1]

/-- C7 amended: the two forms are not interchangeable — on the spec example
(`before = [10, 20, missing]`, `after = [12, missing, 30]`) the paired
statistic uses only the single complete row (`n = 1`, missing standard
error) while the independent form uses two observations per wave and yields
squared standard error `106`; the two standard errors differ there — but
they are not different for EVERY input containing a missing value (see the
counterexample). -/
theorem claim_C7_amended :
    process_row_3_paired_stat [some 10, some 20, none]
        [some 12, none, some 30] = (some 2, none, 1) ∧
    process_row_3_independent_stat [some 10, some 20, none]
        [some 12, none, some 30] = (some 6, some 106) ∧
    (calculate_statistics_with_se [some 10, some 20, none]).2.2 = 2 ∧
    (calculate_statistics_with_se [some 12, none, some 30]).2.2 = 2 ∧
    (process_row_3_paired_stat [some 10, some 20, none]
        [some 12, none, some 30]).2.1 ≠
      (process_row_3_independent_stat [some 10, some 20, none]
        [some 12, none, some 30]).2 := by
  have hp : pairedDiffs [some 10, some 20, none] [some 12, none, some 30] =
      [some 2] := by
    norm_num [pairedDiffs, List.filterMap_cons, List.filterMap_nil]
  have h1 : calculate_statistics_with_se [some 2] = (some 2, none, 1) := by
    norm_num [calculate_statistics_with_se, cleanVals, List.filterMap_cons, List.filterMap_nil]
  have h2 : calculate_statistics_with_se [some 10, some 20, none] =
      (some 15, some 25, 2) := by
    norm_num [calculate_statistics_with_se, cleanVals, List.filterMap_cons, List.filterMap_nil]
  have h3 : calculate_statistics_with_se [some 12, none, some 30] =
      (some 21, some 81, 2) := by
    norm_num [calculate_statistics_with_se, cleanVals, List.filterMap_cons, List.filterMap_nil]
  refine ⟨?_, ?_, ?_, ?_, ?_⟩
  · simp [process_row_3_paired_stat, hp, h1]
  · simp [process_row_3_independent_stat, h2, h3, oSub, oAdd]
    norm_num
  · simp [h2]
  · simp [h3]
  · simp [process_row_3_paired_stat, process_row_3_independent_stat,
      hp, h1, h2, h3, oAdd]

/-! ## Claim C8: cell formatting -/

/-- C8 counterexample: `utility.format_coefficient` renders a missing
mean/standard-error pair as the empty string, not as the claimed dot. -/
theorem claim_C8_counterexample :
    format_coefficient 2 none (some 1) = "" ∧ ("" : String) ≠ "." := by
  decide

/-- C8 amended: the table-3 formatter `format_number` produces
`mean (se)` to two decimals when both values are present and exactly a dot
otherwise, while `utility.format_coefficient` produces the empty string for
a missing value. -/
theorem claim_C8_amended :
    (∀ m s : ℚ, format_number (some m) (some s) =
        formatFixed 2 m ++ " (" ++ formatFixed 2 s ++ ")") ∧
    (∀ x : Cell, format_number none x = "." ∧ format_number x none = ".") ∧
    (∀ dp : ℕ, ∀ x : Cell,
      format_coefficient dp none x = "" ∧ format_coefficient dp x none = "") ∧
    format_number (some (323/200)) (some (3/8)) = "1.62 (0.38)" := by
  refine ⟨?_, ?_, ?_, ?_⟩
  · intro m s; rfl
  · intro x; cases x <;> exact ⟨rfl, rfl⟩
  · intro dp x; cases x <;> exact ⟨rfl, rfl⟩
  · have h1 : round ((323/200 : ℚ) * 10 ^ 2) = 162 := by norm_num [round_eq]
    have h2 : round ((3/8 : ℚ) * 10 ^ 2) = 38 := by norm_num [round_eq]
    simp only [format_number, formatFixed, h1, h2]
    decide

/-! ## Claim C4: the two-group proportion test -/

/-- Group proportion as the claim words it: count over group size. -/
def propOf (xs : List Cell) : ℚ :=
  (cleanVals xs).sum / xs.length

/-- Pooled proportion as the claim words it:
`(count_a + count_b) / (n_a + n_b)`. -/
def pooledProp (nj pa : List Cell) : ℚ :=
  ((cleanVals nj).sum + (cleanVals pa).sum) / (nj.length + pa.length)

/-- Squared pooled standard error as the claim words it:
`p * (1 - p) * (1/n_a + 1/n_b)`. -/
def pooledSeSqSpec (nj pa : List Cell) : ℚ :=
  pooledProp nj pa * (1 - pooledProp nj pa) *
    (1 / (nj.length : ℚ) + 1 / (pa.length : ℚ))

/-- C4 counterexample: on the degeneracy input of the spec (count 0 out of
10 in each group, pooled proportion exactly 0) the code returns the NUMBER
`0` as the t-statistic — the `else 0` fallback — not missing; and with an
empty group it raises `ZeroDivisionError` (Python integer `1/0` in the
pooled-standard-error expression) instead of returning missing. -/
theorem claim_C4_counterexample :
    calculate_proportion_stats
        [some 0, some 0, some 0, some 0, some 0,
         some 0, some 0, some 0, some 0, some 0]
        [some 0, some 0, some 0, some 0, some 0,
         some 0, some 0, some 0, some 0, some 0] =
      Except.ok
        { p1pct := some 0, se1pctSq := some 0, p2pct := some 0,
          se2pctSq := some 0, t := TVal.zeroFallback } ∧
    calculate_proportion_stats [] [some 0] =
      Except.error "ZeroDivisionError" := by
  constructor
  · norm_num [calculate_proportion_stats, cleanVals, List.filterMap_cons,
      List.filterMap_nil]
  · rfl

/-- C4 amended: with both groups nonempty the code computes the group
proportions, the pooled proportion and the squared pooled standard error as
the claim states, and `t = (p_a - p_b)/pooled_se` when that squared standard
error is positive; but when the pooled proportion is exactly `0` or `1` it
returns the number `0` for `t` (the `else 0` fallback), not missing, and
when a group is empty it raises `ZeroDivisionError` rather than returning
missing. -/
theorem claim_C4_amended (nj pa : List Cell) :
    (nj.length = 0 ∨ pa.length = 0 →
      calculate_proportion_stats nj pa = Except.error "ZeroDivisionError") ∧
    (nj.length ≠ 0 → pa.length ≠ 0 →
      ∃ res : PropStats, calculate_proportion_stats nj pa = Except.ok res ∧
        res.p1pct = some (propOf nj * 100) ∧
        res.p2pct = some (propOf pa * 100) ∧
        res.t = (if 0 < pooledSeSqSpec nj pa
                 then TVal.ratio (propOf nj - propOf pa) (pooledSeSqSpec nj pa)
                 else TVal.zeroFallback) ∧
        ((pooledProp nj pa = 0 ∨ pooledProp nj pa = 1) →
          res.t = TVal.zeroFallback)) := by
  constructor
  · intro h
    unfold calculate_proportion_stats
    rw [if_pos h]
  · intro h1 h2
    have hn1 : ((nj.length : ℚ)) ≠ 0 := Nat.cast_ne_zero.mpr h1
    have hn2 : ((pa.length : ℚ)) ≠ 0 := Nat.cast_ne_zero.mpr h2
    have hpool : ((nj.length : ℚ) * ((cleanVals nj).sum / nj.length) +
        (pa.length : ℚ) * ((cleanVals pa).sum / pa.length)) /
          ((nj.length : ℚ) + pa.length) = pooledProp nj pa := by
      rw [mul_div_cancel₀ _ hn1, mul_div_cancel₀ _ hn2]
      simp [pooledProp]
    unfold calculate_proportion_stats
    rw [if_neg (by simp [h1, h2])]
    refine ⟨_, rfl, rfl, rfl, ?_, ?_⟩
    · simp only [hpool]
      rfl
    · intro hp
      simp only [hpool]
      rcases hp with hp | hp <;>
        simp [pooledSeSqSpec, hp]

/-- Witness for C4: the empty-group raise and a nondegenerate two-group
input (counts 1 of 2 and 0 of 1). -/
theorem claim_C4_witness :
    calculate_proportion_stats [] [some 0] =
      Except.error "ZeroDivisionError" ∧
    (∃ res : PropStats,
      calculate_proportion_stats [some 1, some 0] [some 0] = Except.ok res ∧
      res.p1pct = some (propOf [some 1, some 0] * 100) ∧
      res.p2pct = some (propOf [some 0] * 100) ∧
      res.t = (if 0 < pooledSeSqSpec [some 1, some 0] [some 0]
               then TVal.ratio
                 (propOf [some 1, some 0] - propOf [some 0])
                 (pooledSeSqSpec [some 1, some 0] [some 0])
               else TVal.zeroFallback) ∧
      ((pooledProp [some 1, some 0] [some 0] = 0 ∨
          pooledProp [some 1, some 0] [some 0] = 1) →
        res.t = TVal.zeroFallback)) :=
  ⟨(claim_C4_amended [] [some 0]).1 (Or.inl rfl),
   (claim_C4_amended [some 1, some 0] [some 0]).2 (by norm_num) (by norm_num)⟩

/-! ## Claim C9: the regression facade -/

/-- A frame with a single fully observed store for the Table 4 models. -/
def tinyRegFrame : Frame :=
  [[("DEMP", some 2), ("nj", some 1), ("gap", some (3/25)), ("bk", some 1),
    ("kfc", some 0), ("roys", some 0), ("CO_OWNED", some 0),
    ("CENTRALJ", some 0), ("SOUTHJ", some 0), ("PA1", some 0),
    ("PA2", some 0)]]

/-- C9 counterexample: model (i) has one explanatory column, so the claimed
failure threshold is two complete rows; on a one-row frame `run_regressions`
returns a fitted model anyway.  Its return type has no failure case because
the source has none: no `InsufficientDataError` (or any row-count guard)
exists anywhere in the repository. -/
theorem claim_C9_counterexample :
    (run_regressions tinyRegFrame).model1 =
      { response := [2], design := [[1, 1]] } ∧
    (run_regressions tinyRegFrame).model1.response.length = 1 ∧
    1 < 1 + 1 := by
  refine ⟨?_, ?_, by norm_num⟩ <;> decide

/-- C9 amended: rows with a missing response or explanatory value are
excluded before fitting and an intercept column of ones always comes first
in the design matrix (the statsmodels formula-API defaults, modelled from
the spec); but nothing fails on scarce data: the fit is returned whatever
the number of complete rows, and no `InsufficientDataError` exists. -/
theorem claim_C9_amended (resp : String) (cols : List String) (df : Frame) :
    (∀ r ∈ df, ((rowGet r resp).isSome ∧ ∀ c ∈ cols, (rowGet r c).isSome) →
      (1 :: cols.map fun c => (rowGet r c).getD 0) ∈
        (smf_ols resp cols df).design) ∧
    (∀ row ∈ (smf_ols resp cols df).design, row.head? = some 1) ∧
    (smf_ols resp cols df).response.length =
      (df.filter fun r =>
        (rowGet r resp).isSome && cols.all fun c => (rowGet r c).isSome).length ∧
    (smf_ols resp cols df).design.length =
      (smf_ols resp cols df).response.length := by
  refine ⟨?_, ?_, ?_, ?_⟩
  · intro r hr hc
    unfold smf_ols
    refine List.mem_map_of_mem _ (List.mem_filter.mpr ⟨hr, ?_⟩)
    simp only [Bool.and_eq_true, List.all_eq_true]
    exact ⟨hc.1, fun c hcc => hc.2 c hcc⟩
  · intro row hrow
    unfold smf_ols at hrow
    simp only [List.mem_map] at hrow
    obtain ⟨r, -, rfl⟩ := hrow
    rfl
  · simp [smf_ols]
  · simp [smf_ols]

/-- Witness for C9: the single complete row of `tinyRegFrame` appears in the
design matrix of model (i) with its leading intercept `1`. -/
theorem claim_C9_witness :
    (1 :: (["nj"].map fun c =>
        (rowGet [("DEMP", some 2), ("nj", some 1), ("gap", some (3/25)),
          ("bk", some 1), ("kfc", some 0), ("roys", some 0),
          ("CO_OWNED", some 0), ("CENTRALJ", some 0), ("SOUTHJ", some 0),
          ("PA1", some 0), ("PA2", some 0)] c).getD 0)) ∈
      (smf_ols "DEMP" ["nj"] tinyRegFrame).design ∧
    ∀ row ∈ (smf_ols "DEMP" ["nj"] tinyRegFrame).design,
      row.head? = some 1 :=
  ⟨(claim_C9_amended "DEMP" ["nj"] tinyRegFrame).1 _
      (by simp [tinyRegFrame]) ⟨by decide, by decide⟩,
   (claim_C9_amended "DEMP" ["nj"] tinyRegFrame).2.1⟩

end CardKrueger
